import Mathlib

/-! Verification development for the tag store of smexybot
(src/src/command/tag.rs).  The store keeps a namespace map: namespace key
(the string "generic" or a stringified guild id) mapped to a map from tag
name to Tag record.  Public operations: create, edit, delete and the
lookup-invocation path of the tag command.  Persistence rewrites the whole
map to a freshly named temporary file and renames it over the target.
HashMaps are embedded as association lists with unique keys maintained by
mapInsert/mapRemove; u32 counters as Nat with explicit reduction modulo
2^32 where the code can wrap; panics (unwrap/expect) as explicit panic
outcomes; timestamps as an abstract Nat supplied by the caller. -/

namespace Smexybot

/-- Modulus of the u32 uses counter. -/
def U32_MOD : Nat := 2 ^ 32

/-- Tag record, with the fields constructed by Tag::new in
src/src/command/tag.rs (the struct itself is produced by code generation
from tag.in.rs; its fields are exactly those initialised in Tag::new). -/
structure Tag where
  name : String
  content : String
  owner_id : Nat
  uses : Nat
  location : Option String
  created_at : Nat
deriving DecidableEq

/-- Tag::new: uses defaults to 0, created_at defaults to the current time
(passed here explicitly as the abstract clock value now). -/
def Tag.new (name content : String) (owner_id : Nat) (uses : Option Nat)
    (location : Option String) (created_at : Option Nat) (now : Nat) : Tag :=
  { name := name
    content := content
    owner_id := owner_id
    uses := uses.getD 0
    location := location
    created_at := created_at.getD now }

/-- Tag::is_generic: a tag is classified generic when its location field is
absent. -/
def Tag.is_generic (t : Tag) : Bool := t.location.isNone

/-- Embedding of HashMap of String to Tag. -/
abbrev TagMap := List (String × Tag)

/-- Embedding of the namespace map HashMap of String to HashMap. -/
abbrev NsMap := List (String × TagMap)

/-- HashMap::get on the association-list embedding. -/
def mapGet {α : Type} (m : List (String × α)) (k : String) : Option α :=
  match m with
  | [] => none
  | (k', v) :: rest => if k' = k then some v else mapGet rest k

/-- HashMap::insert on the association-list embedding: replaces the binding
of k when present, otherwise appends it. -/
def mapInsert {α : Type} (m : List (String × α)) (k : String) (v : α) :
    List (String × α) :=
  match m with
  | [] => [(k, v)]
  | (k', v') :: rest =>
    if k' = k then (k, v) :: rest else (k', v') :: mapInsert rest k v

/-- HashMap::remove on the association-list embedding. -/
def mapRemove {α : Type} (m : List (String × α)) (k : String) :
    List (String × α) :=
  match m with
  | [] => []
  | (k', v') :: rest => if k' = k then rest else (k', v') :: mapRemove rest k

/-- Modelled from the spec: util::merge lives in src/util.rs, which is not
among the provided source files; per the spec merge policy for
resolveVisibleTags, entries of the second (guild-specific) map take
precedence over entries of the first (generic) map with the same name. -/
def merge (first second : TagMap) : TagMap :=
  second ++ first.filter (fun kv => (mapGet second kv.1).isNone)

/-- get_database_location: a guild id stringifies to its decimal form, the
absence of a guild maps to the "generic" namespace key. -/
def get_database_location (guild : Option Nat) : String :=
  match guild with
  | some g => toString g
  | none => "generic"

/-- Store state: the in-memory namespace map of Config plus a counter of
completed Config::save calls, used to observe whether an operation
triggered a save. -/
structure St where
  tags : NsMap
  saves : Nat
deriving DecidableEq

/-- Tags::get_possible_tags: the generic namespace, merged under the guild
namespace when a guild context is present. -/
def get_possible_tags (tags : NsMap) (guild : Option Nat) : TagMap :=
  match guild with
  | none => (mapGet tags "generic").getD []
  | some g => merge ((mapGet tags "generic").getD [])
      ((mapGet tags (toString g)).getD [])

/-- Tags::get_tag: lookup in the resolved visible set, with the NotFound
message of the source. -/
def get_tag (tags : NsMap) (guild : Option Nat) (name : String) :
    Except String Tag :=
  match mapGet (get_possible_tags tags guild) name with
  | some t => Except.ok t
  | none => Except.error "Tag not found"

/-- Tags::put_tag: get_mut on the target namespace bucket followed by
unwrap, so an absent bucket is a panic (modelled as none); on success the
bucket is updated in place and Config::save runs. -/
def put_tag (s : St) (guild : Option Nat) (name : String) (t : Tag) :
    Option St :=
  match mapGet s.tags (get_database_location guild) with
  | none => none
  | some database =>
    some { tags := mapInsert s.tags (get_database_location guild)
             (mapInsert database name t)
           saves := s.saves + 1 }

/-- Tags::delete_tag: same unwrap on the target bucket, then remove and
save. -/
def delete_tag (s : St) (guild : Option Nat) (name : String) : Option St :=
  match mapGet s.tags (get_database_location guild) with
  | none => none
  | some database =>
    some { tags := mapInsert s.tags (get_database_location guild)
             (mapRemove database name)
           saves := s.saves + 1 }

/-- Result of one public operation: normal return with the new state, an
early error return carrying the state held at that point, or a process
panic. -/
inductive OpResult where
  | ok (s : St)
  | err (s : St) (msg : String)
  | panic
deriving DecidableEq

/-- Model of Rust str::trim: strip whitespace from both ends. -/
def rust_trim (s : String) : String :=
  String.mk (((s.data.dropWhile Char.isWhitespace).reverse.dropWhile
    Char.isWhitespace).reverse)

/-- Model of the per-character lowercasing done by Rust str::to_lowercase,
restricted to the ASCII range; characters outside it are left unchanged. -/
def lower_char (c : Char) : Char :=
  if 65 ≤ c.toNat ∧ c.toNat ≤ 90 then Char.ofNat (c.toNat + 32) else c

/-- Model of Rust str::to_lowercase. -/
def rust_to_lowercase (s : String) : String := String.mk (s.data.map lower_char)

/-- Helper for substring search: does the pattern occur at the front. -/
def starts_with_list (hay pat : List Char) : Bool :=
  match hay, pat with
  | _, [] => true
  | [], _ :: _ => false
  | c :: cs, d :: ds => c == d && starts_with_list cs ds

/-- Helper for substring search: does the pattern occur anywhere. -/
def contains_sub (hay pat : List Char) : Bool :=
  match hay with
  | [] => pat.isEmpty
  | c :: rest => starts_with_list (c :: rest) pat || contains_sub rest pat

/-- Model of Rust str::contains for a literal pattern. -/
def rust_contains (s pat : String) : Bool := contains_sub s.data pat.data

/-- verify_tag_name: rejects names containing the broadcast-mention
substrings and names whose UTF-8 byte length exceeds 100 (Rust
str::len counts bytes). -/
def verify_tag_name (name : String) : Except String Unit :=
  if rust_contains name "@everyone" || rust_contains name "@here" then
    Except.error "Tag contains blocked words"
  else if name.utf8ByteSize > 100 then
    Except.error "Tag name limit is 100 characters"
  else
    Except.ok ()

/-- owner_check: the requester must be the owner of the tag. -/
def owner_check (author : Nat) (t : Tag) : Bool := author == t.owner_id

/-- The create subcommand: argument checks, name normalisation,
verify_tag_name, duplicate check against the target namespace bucket
(lazily defaulted to empty), then insertion and Config::insert which
saves. -/
def create (s : St) (guild : Option Nat) (author : Nat) (args : List String)
    (now : Nat) : OpResult :=
  match args with
  | [] => OpResult.err s "Please specify a name for the tag."
  | nameArg :: rest =>
    if rest.isEmpty then
      OpResult.err s "Please specify some content for the tag."
    else
      match verify_tag_name (rust_to_lowercase (rust_trim nameArg)) with
      | Except.error e => OpResult.err s e
      | Except.ok _ =>
        if (mapGet ((mapGet s.tags (get_database_location guild)).getD [])
            (rust_to_lowercase (rust_trim nameArg))).isSome then
          OpResult.err s "Tag already exists."
        else
          OpResult.ok
            { tags := mapInsert s.tags (get_database_location guild)
                (mapInsert ((mapGet s.tags (get_database_location guild)).getD [])
                  (rust_to_lowercase (rust_trim nameArg))
                  (Tag.new (rust_to_lowercase (rust_trim nameArg))
                    (String.intercalate " " rest) author none
                    (some (get_database_location guild)) none now))
              saves := s.saves + 1 }

/-- The lookup-invocation path of the tag command: lowercase the name,
get_tag, increment uses (u32 addition, wrapping modulo 2^32), write the
copy back with put_tag. -/
def invoke (s : St) (guild : Option Nat) (name : String) : OpResult :=
  match get_tag s.tags guild (rust_to_lowercase name) with
  | Except.error e => OpResult.err s e
  | Except.ok t =>
    match put_tag s guild (rust_to_lowercase name)
        { t with uses := (t.uses + 1) % U32_MOD } with
    | none => OpResult.panic
    | some s' => OpResult.ok s'

/-- The edit subcommand: name argument, lookup, owner check, content
check, then put_tag of the content-updated copy. -/
def edit (s : St) (guild : Option Nat) (author : Nat) (args : List String) :
    OpResult :=
  match args with
  | [] => OpResult.err s "Please specify a tag to edit."
  | nameArg :: rest =>
    match get_tag s.tags guild (rust_to_lowercase (rust_trim nameArg)) with
    | Except.error e => OpResult.err s e
    | Except.ok t =>
      if !owner_check author t then
        OpResult.err s "You do not have permission to do that."
      else if rest.isEmpty then
        OpResult.err s "Please specify some content for the tag."
      else
        match put_tag s guild (rust_to_lowercase (rust_trim nameArg))
            { t with content := String.intercalate " " rest } with
        | none => OpResult.panic
        | some s' => OpResult.ok s'

/-- The delete subcommand: name argument, lookup, owner check, then
delete_tag. -/
def delete (s : St) (guild : Option Nat) (author : Nat) (args : List String) :
    OpResult :=
  match args with
  | [] => OpResult.err s "Please specify a tag to delete."
  | nameArg :: _ =>
    match get_tag s.tags guild (rust_to_lowercase (rust_trim nameArg)) with
    | Except.error e => OpResult.err s e
    | Except.ok t =>
      if !owner_check author t then
        OpResult.err s "You do not have permission to do that."
      else
        match delete_tag s guild (rust_to_lowercase (rust_trim nameArg)) with
        | none => OpResult.panic
        | some s' => OpResult.ok s'

/-- State of the persisted file as Config::load finds it: absent, an open
failure other than NotFound, a read failure, or readable raw content. -/
inductive FileState where
  | absent
  | openError
  | readError
  | content (raw : String)
deriving DecidableEq

/-- Config::load: an absent file leaves the fresh empty map; any other
open failure, a read failure, or a deserialisation failure panics
(modelled as none); otherwise the parsed map is installed.  Deserialisation
(serde_json, an external crate) is abstracted as the parse argument. -/
def load (parse : String → Option NsMap) (f : FileState) : Option NsMap :=
  match f with
  | FileState.absent => some []
  | FileState.openError => none
  | FileState.readError => none
  | FileState.content raw => parse raw

/-- State of the temporary file used by Config::save. -/
inductive TempFile where
  | absent
  | created
  | holds (m : NsMap)
deriving DecidableEq

/-- Disk state seen by Config::save: the target file content (as the map
its serialisation denotes) and the temporary file. -/
structure DiskState where
  target : Option NsMap
  temp : TempFile
deriving DecidableEq

/-- The step of Config::save at which the environment makes the first
failure occur, or success when no step fails.  The steps follow the source
order: File::create of the temp file, serde_json::to_string, write_all,
fs::rename. -/
inductive SavePoint where
  | atCreateTemp
  | atSerialize
  | atWrite
  | atRename
  | success
deriving DecidableEq

/-- Outcome of Config::save: normal return or process panic, each with the
resulting disk state.  The source has no error-result path: every failure
goes through expect. -/
inductive SaveOutcome where
  | done (d : DiskState)
  | panicked (d : DiskState)
deriving DecidableEq

/-- Name of the temporary file, from the format string in Config::save:
the random uuid, a dash, the target name, and the .tmp suffix. -/
def temp_name (uuid name : String) : String := uuid ++ "-" ++ name ++ ".tmp"

/-- Config::save: create the temp file, serialise the whole map, write it,
rename over the target.  Every failing step panics via expect; the target
is only replaced by the final rename. -/
def save (tags : NsMap) (d : DiskState) (p : SavePoint) : SaveOutcome :=
  match p with
  | SavePoint.atCreateTemp => SaveOutcome.panicked d
  | SavePoint.atSerialize => SaveOutcome.panicked { d with temp := TempFile.created }
  | SavePoint.atWrite => SaveOutcome.panicked { d with temp := TempFile.created }
  | SavePoint.atRename => SaveOutcome.panicked { d with temp := TempFile.holds tags }
  | SavePoint.success => SaveOutcome.done { target := some tags, temp := TempFile.absent }

/-- Projection of a normal OpResult; early returns carry their state. -/
def stepOk (r : OpResult) : St :=
  match r with
  | OpResult.ok s => s
  | OpResult.err s _ => s
  | OpResult.panic => { tags := [], saves := 0 }

/-- Projection of a non-panicking put_tag or delete_tag result. -/
def someSt (r : Option St) : St := r.getD { tags := [], saves := 0 }

instance {α β : Type} [DecidableEq α] [DecidableEq β] :
    DecidableEq (Except α β) := fun a b =>
  match a, b with
  | Except.ok x, Except.ok y =>
    if h : x = y then isTrue (by rw [h]) else isFalse (by simp [h])
  | Except.ok _, Except.error _ => isFalse (by simp)
  | Except.error _, Except.ok _ => isFalse (by simp)
  | Except.error x, Except.error y =>
    if h : x = y then isTrue (by rw [h]) else isFalse (by simp [h])

/-- Store holding exactly one generic tag named hi, as produced by a
create call in a no-guild context (the saves counter reset to 0). -/
def c2_store : St :=
  { tags := [("generic",
      [("hi", { name := "hi", content := "x", owner_id := 1, uses := 0,
                location := some "generic", created_at := 0 })])]
    saves := 0 }

/-- Scenario state: a generic tag hi created by user 1 in a no-guild
context. -/
def c1_s1 : St := stepOk (create { tags := [], saves := 0 } none 1 ["hi", "x"] 0)

/-- Scenario state: additionally a tag other created by user 2 inside
guild 5, so the guild 5 bucket exists. -/
def c1_s2 : St := stepOk (create c1_s1 (some 5) 2 ["other", "y"] 0)

/-- Scenario state: the generic tag hi invoked from within guild 5. -/
def c1_s3 : St := stepOk (invoke c1_s2 (some 5) "hi")

/-- A tag named w with the uses counter at u, as created generically. -/
def wTag (u : Nat) : Tag :=
  { name := "w", content := "x", owner_id := 1, uses := u,
    location := some "generic", created_at := 0 }

/-- Store holding only the generic tag w with uses counter u. -/
def mkStore (u : Nat) : St := { tags := [("generic", [("w", wTag u)])], saves := 0 }

/-- First half of the invocation path: the lookup through Tags::get_tag,
performed under its own lock acquisition (taken and released inside
get_possible_tags). -/
def c4_read (s : St) (g : Option Nat) (n : String) : Except String Tag :=
  get_tag s.tags g (rust_to_lowercase n)

/-- Second half of the invocation path: the write-back of the incremented
copy through Tags::put_tag, performed under a second, separate lock
acquisition. -/
def c4_write (s : St) (g : Option Nat) (n : String) (t : Tag) : Option St :=
  put_tag s g (rust_to_lowercase n) { t with uses := (t.uses + 1) % U32_MOD }

/-- The uses counter of the tag w in the generic namespace of a store. -/
def usesAt (s : St) : Option Nat :=
  (mapGet ((mapGet s.tags "generic").getD []) "w").map Tag.uses

/-- Interleaved schedule, first step: invocation A writes back after both
A and B performed their reads on the initial store. -/
def c4i_s1 : St := someSt (c4_write (mkStore 0) none "w" (wTag 0))

/-- Interleaved schedule, second step: invocation B writes back its stale
read of the initial store. -/
def c4i_s2 : St := someSt (c4_write c4i_s1 none "w" (wTag 0))

/-- Serial schedule, first step: invocation A runs to completion. -/
def c4s_s1 : St := stepOk (invoke (mkStore 0) none "w")

/-- Serial schedule, second step: invocation B runs to completion. -/
def c4s_s2 : St := stepOk (invoke c4s_s1 none "w")

theorem mapGet_mapInsert_self {α : Type} (m : List (String × α)) (k : String)
    (v : α) : mapGet (mapInsert m k v) k = some v := by
  induction m with
  | nil => simp [mapInsert, mapGet]
  | cons hd tl ih =>
    obtain ⟨k', v'⟩ := hd
    by_cases h : k' = k <;> simp [mapInsert, mapGet, h, ih]

theorem mapGet_mapInsert_ne {α : Type} (m : List (String × α)) (k k' : String)
    (v : α) (h : k' ≠ k) : mapGet (mapInsert m k v) k' = mapGet m k' := by
  induction m with
  | nil => simp [mapInsert, mapGet, Ne.symm h]
  | cons hd tl ih =>
    obtain ⟨k₀, v₀⟩ := hd
    by_cases h0 : k₀ = k
    · subst h0
      simp [mapInsert, mapGet, Ne.symm h]
    · by_cases h1 : k₀ = k' <;> simp [mapInsert, mapGet, h0, h1, h, ih]

theorem mapGet_append {α : Type} (m₁ m₂ : List (String × α)) (k : String) :
    mapGet (m₁ ++ m₂) k =
      match mapGet m₁ k with
      | some v => some v
      | none => mapGet m₂ k := by
  induction m₁ with
  | nil => simp [mapGet]
  | cons hd tl ih =>
    obtain ⟨k', v⟩ := hd
    by_cases h : k' = k <;> simp [mapGet, h, ih]

theorem mapGet_filter_of_none {α : Type} (m₁ m₂ : List (String × α))
    (k : String) (h : mapGet m₂ k = none) :
    mapGet (m₁.filter fun kv => (mapGet m₂ kv.1).isNone) k = mapGet m₁ k := by
  induction m₁ with
  | nil => simp
  | cons hd tl ih =>
    obtain ⟨k', v⟩ := hd
    by_cases hk : k' = k
    · subst hk
      simp [List.filter, mapGet, h]
    · cases hp : (mapGet m₂ k').isNone <;>
        simp [List.filter, mapGet, hk, hp, ih]

theorem mapGet_merge (a b : TagMap) (k : String) :
    mapGet (merge a b) k =
      match mapGet b k with
      | some t => some t
      | none => mapGet a k := by
  unfold merge
  rw [mapGet_append]
  cases hb : mapGet b k with
  | some t => simp
  | none => simp [mapGet_filter_of_none a b k hb]

theorem get_possible_after_insert (tags : NsMap) (g : Option Nat)
    (db : TagMap) (n : String) (t : Tag) :
    mapGet (get_possible_tags
      (mapInsert tags (get_database_location g) (mapInsert db n t)) g) n
      = some t := by
  cases g with
  | none =>
    simp [get_possible_tags, get_database_location, mapGet_mapInsert_self]
  | some gid =>
    simp [get_possible_tags, get_database_location, mapGet_merge,
      mapGet_mapInsert_self]

theorem put_tag_eq_none (s : St) (g : Option Nat) (n : String) (t : Tag) :
    put_tag s g n t = none ↔
      mapGet s.tags (get_database_location g) = none := by
  unfold put_tag
  cases h : mapGet s.tags (get_database_location g) <;> simp

theorem delete_tag_eq_none (s : St) (g : Option Nat) (n : String) :
    delete_tag s g n = none ↔
      mapGet s.tags (get_database_location g) = none := by
  unfold delete_tag
  cases h : mapGet s.tags (get_database_location g) <;> simp

theorem put_tag_eq_some (s s' : St) (g : Option Nat) (n : String) (t : Tag)
    (h : put_tag s g n t = some s') :
    ∃ db, mapGet s.tags (get_database_location g) = some db ∧
      s' = { tags := mapInsert s.tags (get_database_location g)
               (mapInsert db n t)
             saves := s.saves + 1 } := by
  unfold put_tag at h
  cases hdb : mapGet s.tags (get_database_location g) with
  | none => rw [hdb] at h; cases h
  | some db =>
    rw [hdb] at h
    injection h with h
    exact ⟨db, rfl, h.symm⟩

theorem get_tag_after_put (s s' : St) (g : Option Nat) (n : String) (t : Tag)
    (h : put_tag s g n t = some s') :
    get_tag s'.tags g n = Except.ok t := by
  obtain ⟨db, _, rfl⟩ := put_tag_eq_some s s' g n t h
  simp [get_tag, get_possible_after_insert]

theorem put_tag_preserves_other (s s' : St) (g : Option Nat) (n : String)
    (t : Tag) (h : put_tag s g n t = some s') (k : String)
    (hk : k ≠ get_database_location g) :
    mapGet s'.tags k = mapGet s.tags k := by
  obtain ⟨db, _, rfl⟩ := put_tag_eq_some s s' g n t h
  exact mapGet_mapInsert_ne _ _ _ _ hk

theorem put_tag_then_put (s s' : St) (g : Option Nat) (n n' : String)
    (t t' : Tag) (h : put_tag s g n t = some s') :
    ∃ s'', put_tag s' g n' t' = some s'' := by
  obtain ⟨db, _, rfl⟩ := put_tag_eq_some s s' g n t h
  unfold put_tag
  simp [mapGet_mapInsert_self]


/-- C6: resolveVisibleTags with a guild context returns the union of the
generic namespace and the guild namespace with the guild entry winning on
a shared name, and with no guild context exactly the generic namespace;
the operation is total. -/
theorem c6_resolve_visible_tags (tags : NsMap) (g : Nat) (name : String) :
    (mapGet (get_possible_tags tags (some g)) name
      = match mapGet ((mapGet tags (toString g)).getD []) name with
        | some t => some t
        | none => mapGet ((mapGet tags "generic").getD []) name)
    ∧ get_possible_tags tags none = (mapGet tags "generic").getD [] := by
  exact ⟨mapGet_merge _ _ _, rfl⟩

/-- C8: a tag created with no guild context gets location some "generic",
not an absent location, and is therefore classified as not generic by
Tag.is_generic. -/
theorem c8_generic_location_bug :
    create ⟨[], 0⟩ none 1 ["hi", "x"] 0
      = OpResult.ok ⟨[("generic",
          [("hi", ⟨"hi", "x", 1, 0, some "generic", 0⟩)])], 1⟩
    ∧ Tag.is_generic ⟨"hi", "x", 1, 0, some "generic", 0⟩ = false := by decide

/-- C9: load yields the empty map when the file is absent and panics on an
open failure, a read failure, or a parse failure; a parsed file installs
exactly the parsed map. -/
theorem c9_load_behaviour (parse : String → Option NsMap) (raw : String)
    (m : NsMap) :
    load parse FileState.absent = some []
    ∧ load parse FileState.openError = none
    ∧ load parse FileState.readError = none
    ∧ (parse raw = none → load parse (FileState.content raw) = none)
    ∧ (parse raw = some m → load parse (FileState.content raw) = some m) := by
  exact ⟨rfl, rfl, rfl, fun h => h, fun h => h⟩

/-- Witness for C9 at two concrete parse functions. -/
theorem c9_load_behaviour_witness :
    load (fun _ => none) (FileState.content "x") = none
    ∧ load (fun _ => some [("generic", [])]) (FileState.content "x")
        = some [("generic", [])] :=
  ⟨(c9_load_behaviour (fun _ => none) "x" []).2.2.2.1 rfl,
   (c9_load_behaviour (fun _ => some [("generic", [])]) "x"
     [("generic", [])]).2.2.2.2 rfl⟩

/-- C10: an invocation stores the uses counter incremented modulo 2^32,
and at 2^32 - 1 a further successful invocation stores 0. -/
theorem c10_uses_wraps (u : Nat) :
    invoke (mkStore u) none "w"
      = OpResult.ok
          ⟨[("generic", [("w", { wTag u with uses := (u + 1) % U32_MOD })])], 1⟩
    ∧ usesAt (stepOk (invoke (mkStore (U32_MOD - 1)) none "w")) = some 0 := by
  exact ⟨rfl, by decide⟩

/-- C5: a create, edit, or delete call that returns an error leaves the
store state, including the save counter, exactly as it was. -/
theorem c5_failed_mutation_unchanged (s s' : St) (guild : Option Nat)
    (author : Nat) (args : List String) (now : Nat) (msg : String) :
    (create s guild author args now = OpResult.err s' msg → s' = s)
    ∧ (edit s guild author args = OpResult.err s' msg → s' = s)
    ∧ (delete s guild author args = OpResult.err s' msg → s' = s) := by
  refine ⟨fun h => ?_, fun h => ?_, fun h => ?_⟩
  · unfold create at h
    repeat' split at h
    all_goals
      first
        | (injection h with h1 _; exact h1.symm)
        | exact OpResult.noConfusion h
  · unfold edit at h
    repeat' split at h
    all_goals
      first
        | (injection h with h1 _; exact h1.symm)
        | exact OpResult.noConfusion h
  · unfold delete at h
    repeat' split at h
    all_goals
      first
        | (injection h with h1 _; exact h1.symm)
        | exact OpResult.noConfusion h

/-- Witness for C5 at concrete failing calls of all three mutations. -/
theorem c5_failed_mutation_unchanged_witness :
    ((⟨[], 0⟩ : St) = ⟨[], 0⟩) ∧ ((⟨[], 0⟩ : St) = ⟨[], 0⟩)
    ∧ ((⟨[], 0⟩ : St) = ⟨[], 0⟩) :=
  ⟨(c5_failed_mutation_unchanged ⟨[], 0⟩ ⟨[], 0⟩ none 1 [] 0
      "Please specify a name for the tag.").1 (by decide),
   (c5_failed_mutation_unchanged ⟨[], 0⟩ ⟨[], 0⟩ none 1 [] 0
      "Please specify a tag to edit.").2.1 (by decide),
   (c5_failed_mutation_unchanged ⟨[], 0⟩ ⟨[], 0⟩ none 1 [] 0
      "Please specify a tag to delete.").2.2 (by decide)⟩
/-- C1 counterexample: after creating the generic tag hi and a guild 5 tag
other, invoking hi from within guild 5 succeeds and copies the updated tag
into the guild 5 namespace, where no tag hi existed before. -/
theorem c1_counterexample :
    create ⟨[], 0⟩ none 1 ["hi", "x"] 0 = OpResult.ok c1_s1
    ∧ create c1_s1 (some 5) 2 ["other", "y"] 0 = OpResult.ok c1_s2
    ∧ mapGet ((mapGet c1_s2.tags "5").getD []) "hi" = none
    ∧ invoke c1_s2 (some 5) "hi" = OpResult.ok c1_s3
    ∧ mapGet ((mapGet c1_s3.tags "5").getD []) "hi"
        = some ⟨"hi", "x", 1, 1, some "generic", 0⟩ := by decide

/-- C1 amended: a successful invocation or edit performed in a guild
context writes only to that guild namespace and leaves every other
namespace, the generic one included, unchanged; the original record is
never moved, but the updated copy lands in the guild namespace. -/
theorem c1_amended_namespace_copy (s s' : St) (g : Nat) (name : String)
    (author : Nat) (args : List String) :
    (invoke s (some g) name = OpResult.ok s' →
      ∀ k, k ≠ toString g → mapGet s'.tags k = mapGet s.tags k)
    ∧ (edit s (some g) author args = OpResult.ok s' →
      ∀ k, k ≠ toString g → mapGet s'.tags k = mapGet s.tags k) := by
  constructor
  · intro h k hk
    unfold invoke at h
    split at h
    · exact OpResult.noConfusion h
    · split at h
      · exact OpResult.noConfusion h
      · rename_i t s'' hput
        injection h with h
        subst h
        exact put_tag_preserves_other _ _ _ _ _ hput k hk
  · intro h k hk
    unfold edit at h
    repeat' split at h
    all_goals try exact OpResult.noConfusion h
    rename_i hput
    injection h with h
    subst h
    exact put_tag_preserves_other _ _ _ _ _ hput k hk

/-- Witness for C1 amended: the guild 5 invocation of the generic tag hi
leaves the generic namespace itself unchanged. -/
theorem c1_amended_namespace_copy_witness :
    mapGet c1_s3.tags "generic" = mapGet c1_s2.tags "generic" :=
  (c1_amended_namespace_copy c1_s2 c1_s3 5 "hi" 0 []).1 (by decide) "generic"
    (by decide)

/-- C2 counterexample: invoking the generic tag hi from guild 5, whose
namespace bucket does not exist yet, panics the process instead of
returning a typed error or lazily creating the bucket. -/
theorem c2_counterexample : invoke c2_store (some 5) "hi" = OpResult.panic := by
  decide

/-- C2 amended: validation, duplicate, not-found and permission failures
are returned as error values and create never panics, but the write-back
of an invocation, edit, or delete panics whenever the target namespace
bucket is absent, and every save failure panics rather than returning an
error. -/
theorem c2_amended_error_handling (s : St) (guild : Option Nat) (author : Nat)
    (args : List String) (name : String) (now : Nat) (tags : NsMap)
    (d : DiskState) (p : SavePoint) :
    (create s guild author args now ≠ OpResult.panic)
    ∧ (invoke s guild name = OpResult.panic →
        mapGet s.tags (get_database_location guild) = none)
    ∧ (edit s guild author args = OpResult.panic →
        mapGet s.tags (get_database_location guild) = none)
    ∧ (delete s guild author args = OpResult.panic →
        mapGet s.tags (get_database_location guild) = none)
    ∧ (p ≠ SavePoint.success → ∃ d', save tags d p = SaveOutcome.panicked d') := by
  refine ⟨fun h => ?_, fun h => ?_, fun h => ?_, fun h => ?_, fun h => ?_⟩
  · unfold create at h
    repeat' split at h
    all_goals exact OpResult.noConfusion h
  · unfold invoke at h
    repeat' split at h
    all_goals try exact OpResult.noConfusion h
    rename_i hput
    exact (put_tag_eq_none _ _ _ _).mp hput
  · unfold edit at h
    repeat' split at h
    all_goals try exact OpResult.noConfusion h
    rename_i hput
    exact (put_tag_eq_none _ _ _ _).mp hput
  · unfold delete at h
    repeat' split at h
    all_goals try exact OpResult.noConfusion h
    rename_i hdel
    exact (delete_tag_eq_none _ _ _).mp hdel
  · cases p with
    | success => exact absurd rfl h
    | atCreateTemp => exact ⟨_, rfl⟩
    | atSerialize => exact ⟨_, rfl⟩
    | atWrite => exact ⟨_, rfl⟩
    | atRename => exact ⟨_, rfl⟩

/-- Witness for C2 amended at concrete calls: an empty create call, the
panicking guild 5 invocation, and a failing save. -/
theorem c2_amended_error_handling_witness :
    create ⟨[], 0⟩ none 1 [] 0 ≠ OpResult.panic
    ∧ mapGet c2_store.tags (get_database_location (some 5)) = none
    ∧ ∃ d', save [] ⟨none, TempFile.absent⟩ SavePoint.atWrite
        = SaveOutcome.panicked d' :=
  ⟨(c2_amended_error_handling ⟨[], 0⟩ none 1 [] "" 0 []
      ⟨none, TempFile.absent⟩ SavePoint.atWrite).1,
   (c2_amended_error_handling c2_store (some 5) 1 [] "hi" 0 []
      ⟨none, TempFile.absent⟩ SavePoint.atWrite).2.1 (by decide),
   (c2_amended_error_handling c2_store (some 5) 1 [] "hi" 0 []
      ⟨none, TempFile.absent⟩ SavePoint.atWrite).2.2.2.2 (by decide)⟩

/-- C3 counterexample: a save whose temporary-file creation fails leaves
the previously persisted target untouched but panics the process; the
failure is not reported to the caller as an error result. -/
theorem c3_counterexample :
    save [] ⟨some [], TempFile.absent⟩ SavePoint.atCreateTemp
      = SaveOutcome.panicked ⟨some [], TempFile.absent⟩ := by decide

/-- C3 amended: every failure before the final rename leaves the target
file untouched, and a failure-free save atomically installs the full
serialized map; but a failing save panics instead of returning an error
result. -/
theorem c3_amended_save_atomicity (tags : NsMap) (d : DiskState)
    (p : SavePoint) :
    (p ≠ SavePoint.success →
      ∃ d', save tags d p = SaveOutcome.panicked d' ∧ d'.target = d.target)
    ∧ save tags d SavePoint.success
        = SaveOutcome.done ⟨some tags, TempFile.absent⟩ := by
  refine ⟨fun h => ?_, rfl⟩
  cases p with
  | success => exact absurd rfl h
  | atCreateTemp => exact ⟨_, rfl, rfl⟩
  | atSerialize => exact ⟨_, rfl, rfl⟩
  | atWrite => exact ⟨_, rfl, rfl⟩
  | atRename => exact ⟨_, rfl, rfl⟩

/-- Witness for C3 amended: a failure at the rename step panics with the
target still holding its previous content. -/
theorem c3_amended_save_atomicity_witness :
    ∃ d', save [("generic", [])] ⟨none, TempFile.absent⟩ SavePoint.atRename
        = SaveOutcome.panicked d' ∧ d'.target = none :=
  (c3_amended_save_atomicity [("generic", [])] ⟨none, TempFile.absent⟩
    SavePoint.atRename).1 (by decide)
/-- C4 counterexample: the read and the write-back of an invocation are
separate lock acquisitions, so two concurrent invocations of the generic
tag w can both read before either writes; that interleaving of their
critical sections ends with the uses counter at 1, while both serial
orders end with it at 2, so the two read-modify-save sequences do
interleave observably. -/
theorem c4_counterexample :
    c4_read (mkStore 0) none "w" = Except.ok (wTag 0)
    ∧ c4_write (mkStore 0) none "w" (wTag 0) = some c4i_s1
    ∧ c4_write c4i_s1 none "w" (wTag 0) = some c4i_s2
    ∧ usesAt c4i_s2 = some 1
    ∧ invoke (mkStore 0) none "w" = OpResult.ok c4s_s1
    ∧ invoke c4s_s1 none "w" = OpResult.ok c4s_s2
    ∧ usesAt c4s_s2 = some 2
    ∧ c4i_s2 ≠ c4s_s2 := by decide

/-- C4 amended: an invocation is exactly the composition of two separately
locked critical sections, the get_tag read and the put_tag write-back;
executing the two reads of two invocations before their write-backs is
therefore a possible schedule, and it stores uses incremented once, while
the serial schedule stores uses incremented twice, values that always
differ. -/
theorem c4_amended_lock_structure (s s1 : St) (g : Option Nat) (n : String)
    (e : String) (t : Tag) (sw : St) :
    (c4_read s g n = Except.error e → invoke s g n = OpResult.err s e)
    ∧ (c4_read s g n = Except.ok t → c4_write s g n t = none →
        invoke s g n = OpResult.panic)
    ∧ (c4_read s g n = Except.ok t → c4_write s g n t = some sw →
        invoke s g n = OpResult.ok sw)
    ∧ (c4_write s g n t = some s1 → ∀ s2, c4_write s1 g n t = some s2 →
        get_tag s2.tags g (rust_to_lowercase n)
          = Except.ok { t with uses := (t.uses + 1) % U32_MOD })
    ∧ (c4_write s g n t = some s1 →
        ∃ s2, invoke s1 g n = OpResult.ok s2 ∧
          get_tag s2.tags g (rust_to_lowercase n)
            = Except.ok { t with uses := ((t.uses + 1) % U32_MOD + 1) % U32_MOD })
    ∧ ((t.uses + 1) % U32_MOD + 1) % U32_MOD = (t.uses + 2) % U32_MOD
    ∧ (t.uses + 1) % U32_MOD ≠ ((t.uses + 1) % U32_MOD + 1) % U32_MOD := by
  refine ⟨fun hr => ?_, fun hr hw => ?_, fun hr hw => ?_, fun hw1 s2 hw2 => ?_,
    fun hw1 => ?_, ?_, ?_⟩
  · unfold invoke
    unfold c4_read at hr
    simp only [hr]
  · unfold invoke
    unfold c4_read at hr
    unfold c4_write at hw
    simp only [hr, hw]
  · unfold invoke
    unfold c4_read at hr
    unfold c4_write at hw
    simp only [hr, hw]
  · unfold c4_write at hw2
    exact get_tag_after_put _ _ _ _ _ hw2
  · unfold c4_write at hw1
    obtain ⟨s2, hs2⟩ := put_tag_then_put _ _ _ _ (rust_to_lowercase n) _
      { t with uses := ((t.uses + 1) % U32_MOD + 1) % U32_MOD } hw1
    refine ⟨s2, ?_, get_tag_after_put _ _ _ _ _ hs2⟩
    unfold invoke
    simp only [get_tag_after_put _ _ _ _ _ hw1, hs2]
  · unfold U32_MOD
    omega
  · unfold U32_MOD
    omega
/-- Witness for C4 amended at concrete schedules over the one-tag store:
an error read, a panicking write-back into an absent guild bucket, a
completed invocation, and the interleaved write-backs. -/
theorem c4_amended_lock_structure_witness :
    invoke ⟨[], 0⟩ none "w" = OpResult.err ⟨[], 0⟩ "Tag not found"
    ∧ invoke (mkStore 0) (some 5) "w" = OpResult.panic
    ∧ invoke (mkStore 0) none "w" = OpResult.ok c4i_s1
    ∧ get_tag c4i_s2.tags none (rust_to_lowercase "w")
        = Except.ok { wTag 0 with uses := ((wTag 0).uses + 1) % U32_MOD }
    ∧ ∃ s2, invoke c4i_s1 none "w" = OpResult.ok s2 ∧
        get_tag s2.tags none (rust_to_lowercase "w")
          = Except.ok { wTag 0 with
              uses := (((wTag 0).uses + 1) % U32_MOD + 1) % U32_MOD } :=
  ⟨(c4_amended_lock_structure ⟨[], 0⟩ ⟨[], 0⟩ none "w" "Tag not found"
      (wTag 0) ⟨[], 0⟩).1 (by decide),
   (c4_amended_lock_structure (mkStore 0) ⟨[], 0⟩ (some 5) "w" ""
      (wTag 0) ⟨[], 0⟩).2.1 (by decide) (by decide),
   (c4_amended_lock_structure (mkStore 0) ⟨[], 0⟩ none "w" ""
      (wTag 0) c4i_s1).2.2.1 (by decide) (by decide),
   (c4_amended_lock_structure (mkStore 0) c4i_s1 none "w" ""
      (wTag 0) ⟨[], 0⟩).2.2.2.1 (by decide) c4i_s2 (by decide),
   (c4_amended_lock_structure (mkStore 0) c4i_s1 none "w" ""
      (wTag 0) ⟨[], 0⟩).2.2.2.2.1 (by decide)⟩

/-- C7: when create succeeds, an immediately following get_tag in the same
guild context returns a tag with the created name, content, and owner, and
a uses counter of 0. -/
theorem c7_create_then_get (s s' : St) (guild : Option Nat) (author : Nat)
    (nameArg : String) (rest : List String) (now : Nat)
    (h : create s guild author (nameArg :: rest) now = OpResult.ok s') :
    ∃ t : Tag,
      get_tag s'.tags guild (rust_to_lowercase (rust_trim nameArg))
        = Except.ok t
      ∧ t.name = rust_to_lowercase (rust_trim nameArg)
      ∧ t.content = String.intercalate " " rest
      ∧ t.owner_id = author
      ∧ t.uses = 0 := by
  simp only [create] at h
  repeat' split at h
  all_goals try exact OpResult.noConfusion h
  injection h with h
  subst h
  refine ⟨Tag.new (rust_to_lowercase (rust_trim nameArg))
    (String.intercalate " " rest) author none
    (some (get_database_location guild)) none now, ?_, rfl, rfl, rfl, rfl⟩
  simp [get_tag, get_possible_after_insert]

/-- Witness for C7 at a concrete creation in the no-guild context. -/
theorem c7_create_then_get_witness :
    ∃ t : Tag,
      get_tag (St.tags ⟨[("generic",
          [("hi", ⟨"hi", "there", 1, 0, some "generic", 0⟩)])], 1⟩)
          none (rust_to_lowercase (rust_trim "Hi")) = Except.ok t
      ∧ t.name = rust_to_lowercase (rust_trim "Hi")
      ∧ t.content = String.intercalate " " ["there"]
      ∧ t.owner_id = 1
      ∧ t.uses = 0 :=
  c7_create_then_get ⟨[], 0⟩
    ⟨[("generic", [("hi", ⟨"hi", "there", 1, 0, some "generic", 0⟩)])], 1⟩
    none 1 "Hi" ["there"] 0 (by decide)

end Smexybot
